import Mathlib

/-!
Verification of the lemr-meteo derivation layer.

Shallow embedding of the pure derivation functions of the repository:
`metar_generator.py` (synthetic METAR encoder), `metar_service.py`
(flight-category classifier), `weather_service.py` (fog-risk assessor) and
`ai_service.py` (convective-risk assessor), plus the runway-component
computation described by the specification.

Python numbers are modelled as `ℚ` (floats are a subset of the rationals;
the float rounding of individual arithmetic operations is not modelled).
Python `round` is banker's rounding (half to even), modelled by `pyRound`.
Python `int()` truncates toward zero, modelled by `ratTrunc`.
`math.log` is transcendental and is therefore passed in as an explicit
function parameter `log : ℚ → ℚ`; every theorem quantifies over it.
-/

namespace LemrMeteo

/-- Python `round` on a rational: round half to even (banker's rounding). -/
def pyRound (q : ℚ) : ℤ :=
  let f := ⌊q⌋
  if q - f < 1/2 then f
  else if q - f > 1/2 then f + 1
  else if f % 2 = 0 then f else f + 1

/-- Python `int()` on a rational: truncation toward zero. -/
def ratTrunc (q : ℚ) : ℤ :=
  if q ≥ 0 then ⌊q⌋ else -⌊-q⌋

/-- Python `round(x, 1)`: round to one decimal place (half to even). -/
def pyRound1 (q : ℚ) : ℚ :=
  (pyRound (q * 10) : ℚ) / 10

/-- The decimal digit characters used when rendering numbers. -/
def digitChar (d : ℕ) : Char :=
  if d = 0 then '0' else if d = 1 then '1' else if d = 2 then '2'
  else if d = 3 then '3' else if d = 4 then '4' else if d = 5 then '5'
  else if d = 6 then '6' else if d = 7 then '7' else if d = 8 then '8' else '9'

/-- Decimal digits with a structural fuel argument (the fuel keeps the
recursion kernel-reducible; `n + 1` steps always suffice). -/
def natDigitsAux : ℕ → ℕ → List Char
  | _, 0 => []
  | n, fuel + 1 =>
    if n < 10 then [digitChar n]
    else natDigitsAux (n / 10) fuel ++ [digitChar (n % 10)]

/-- Decimal digits of a natural number, most significant first. -/
def natDigits (n : ℕ) : List Char :=
  natDigitsAux n (n + 1)

/-- Decimal rendering of a natural number (Python `str`). -/
def natStr (n : ℕ) : String :=
  String.mk (natDigits n)

/-- Python `f"{n:0wd}"`: zero-padded decimal of width `w`; the zeros go
after the minus sign. -/
def zpad (w : ℕ) (n : ℤ) : String :=
  let sign := if n < 0 then "-" else ""
  let ds := natStr n.natAbs
  sign ++ String.mk (List.replicate (w - (sign.length + ds.length)) '0') ++ ds

/-- Whether a string contains a character (over the underlying char list). -/
def hasChar (s : String) (c : Char) : Bool :=
  decide (c ∈ s.data)

/-- The whitespace characters recognised by Python `str.split()` / `\s`
(ASCII subset). -/
def pyIsSpace (c : Char) : Bool :=
  c = ' ' || c = '\t' || c = '\n' || c = '\r' || c = '\x0b' || c = '\x0c'

/-- Python `" ".join(s.split())`: collapse whitespace runs to single spaces
and strip the ends. -/
def collapseSpaces (s : String) : String :=
  " ".intercalate ((s.split (fun c => pyIsSpace c)).filter (fun t => t ≠ ""))

/-- Python slice `s[a:b]` on a string. -/
def strSlice (s : String) (a b : ℕ) : String :=
  String.mk ((s.data.drop a).take (b - a))

/-! ### metar_service.py — flight-category classifier -/

/-- The flight categories produced by `classify_flight_category`
(`DESCONOCIDO` is the default "could not classify" result). -/
inductive FlightCat where
  | VFR
  | MVFR
  | IFR
  | LIFR
  | DESCONOCIDO
deriving DecidableEq, Repr

/-- `v < b` on an optional value, false when absent (Python
`x is not None and x < b`). -/
def ltOpt (x : Option ℕ) (b : ℕ) : Bool :=
  match x with
  | some v => v < b
  | none => false

/-- `v ≤ b` on an optional value, false when absent. -/
def leOpt (x : Option ℕ) (b : ℕ) : Bool :=
  match x with
  | some v => v ≤ b
  | none => false

/-- The decision block of `classify_flight_category`
(`metar_service.py` lines 182–192): most restrictive band wins, `VFR` by
default. -/
def flightCategoryOf (ceiling_ft visibility_m : Option ℕ) : FlightCat :=
  if ltOpt ceiling_ft 500 || ltOpt visibility_m 1000 then .LIFR
  else if ltOpt ceiling_ft 1000 || ltOpt visibility_m 3000 then .IFR
  else if leOpt ceiling_ft 3000 || leOpt visibility_m 5000 then .MVFR
  else .VFR

/-- Numeric value of a list of decimal digit characters. -/
def digitsVal (cs : List Char) : ℕ :=
  cs.foldl (fun a c => a * 10 + (c.toNat - 48)) 0

/-- Match four decimal digits at the head of the character list
(the `(\d{4})` capture group; what follows is unconstrained). -/
def takeDigits4 : List Char → Option ℕ
  | a :: b :: c :: d :: _ =>
    if a.isDigit ∧ b.isDigit ∧ c.isDigit ∧ d.isDigit then
      some (digitsVal [a, b, c, d])
    else none
  | _ => none

/-- Consume one mandatory whitespace character followed by any further
whitespace (the regex `\s+`; greedy consumption is equivalent here because
the pattern that follows never matches whitespace). -/
def afterSpaces1 : List Char → Option (List Char)
  | c :: rest => if pyIsSpace c then some (rest.dropWhile (fun x => pyIsSpace x)) else none
  | [] => none

/-- Try to match `\d{5}KT\s+(\d{4})` at the head of the list, returning
the captured visibility value. -/
def matchVis1At : List Char → Option ℕ
  | a :: b :: c :: d :: e :: 'K' :: 'T' :: rest =>
    if a.isDigit ∧ b.isDigit ∧ c.isDigit ∧ d.isDigit ∧ e.isDigit then
      match afterSpaces1 rest with
      | some r2 => takeDigits4 r2
      | none => none
    else none
  | _ => none

/-- Try to match `KT\s+(\d{4})(?:\s|$)` at the head of the list. -/
def matchVis2At : List Char → Option ℕ
  | 'K' :: 'T' :: rest =>
    (match afterSpaces1 rest with
     | some r2 =>
       match r2 with
       | a :: b :: c :: d :: rest2 =>
         if a.isDigit ∧ b.isDigit ∧ c.isDigit ∧ d.isDigit then
           match rest2 with
           | [] => some (digitsVal [a, b, c, d])
           | x :: _ => if pyIsSpace x then some (digitsVal [a, b, c, d]) else none
         else none
       | _ => none
     | none => none)
  | _ => none

/-- `re.search`: try the matcher at every start position, left to right. -/
def reSearch (f : List Char → Option ℕ) : List Char → Option ℕ
  | [] => f []
  | x :: xs =>
    match f (x :: xs) with
    | some v => some v
    | none => reSearch f xs

/-- Visibility extraction of `classify_flight_category`: first the pattern
`\d{5}KT\s+(\d{4})`, then the alternative `KT\s+(\d{4})(?:\s|$)`. -/
def extractVisibilityM (metar : String) : Option ℕ :=
  match reSearch matchVis1At metar.data with
  | some v => some v
  | none => reSearch matchVis2At metar.data

/-- `re.findall(r'(BKN|OVC)(\d{3})', metar)`: all cloud-layer heights (in
hundreds of feet), non-overlapping, left to right. -/
def findCeilings : List Char → List ℕ
  | t₁ :: t₂ :: t₃ :: a :: b :: c :: rest =>
    if ((t₁ = 'B' ∧ t₂ = 'K' ∧ t₃ = 'N') ∨ (t₁ = 'O' ∧ t₂ = 'V' ∧ t₃ = 'C'))
        ∧ a.isDigit ∧ b.isDigit ∧ c.isDigit then
      digitsVal [a, b, c] :: findCeilings rest
    else
      findCeilings (t₂ :: t₃ :: a :: b :: c :: rest)
  | _ :: xs => findCeilings xs
  | [] => []

/-- `classify_flight_category` (`metar_service.py` lines 125–222), reduced
to the category it selects.  Empty or short input returns the default
`DESCONOCIDO`; a raw visibility of 9999 is treated as 10000 m; the ceiling
is the lowest `BKN`/`OVC` layer in feet. -/
def classify_flight_category (metar : String) : FlightCat :=
  if metar.length < 10 then .DESCONOCIDO
  else
    let vis0 := extractVisibilityM metar
    let visibility_m := if vis0 = some 9999 then some 10000 else vis0
    let ceilings := (findCeilings metar.data).map (fun h => h * 100)
    let ceiling_ft : Option ℕ :=
      match ceilings with
      | [] => none
      | x :: xs => some (xs.foldl min x)
    flightCategoryOf ceiling_ft visibility_m

/-- Restrictiveness rank of a flight category (`VFR` least restrictive);
`DESCONOCIDO` is ranked last and is never produced by
`flightCategoryOf`. -/
def restrictiveness : FlightCat → ℕ
  | .VFR => 0
  | .MVFR => 1
  | .IFR => 2
  | .LIFR => 3
  | .DESCONOCIDO => 4

/-! ### metar_generator.py — synthetic METAR encoder -/

/-- `calculate_dewpoint` (Magnus formula); `log` stands for Python
`math.log`, passed in explicitly because it is transcendental. -/
def calculate_dewpoint (log : ℚ → ℚ) (temperature_c humidity_percent : ℚ) : ℚ :=
  if humidity_percent ≤ 0 ∨ humidity_percent > 100 then
    temperature_c - 5
  else
    let a : ℚ := 17.27
    let b : ℚ := 237.7
    let alpha := ((a * temperature_c) / (b + temperature_c)) + log (humidity_percent / 100)
    (b * alpha) / (a - alpha)

/-- `kmh_to_knots`: km/h to (rounded) knots. -/
def kmh_to_knots (speed_kmh : ℚ) : ℤ :=
  pyRound (speed_kmh * 0.539957)

/-- `get_weather_phenomena`: WMO weather code to METAR phenomenon token. -/
def get_weather_phenomena (weather_code : ℕ) : String :=
  match weather_code with
  | 0 => "" | 1 => "" | 2 => "" | 3 => ""
  | 45 => "FG" | 48 => "FG"
  | 51 => "DZ" | 53 => "DZ" | 55 => "+DZ"
  | 56 => "-FZDZ" | 57 => "FZDZ"
  | 61 => "-RA" | 63 => "RA" | 65 => "+RA"
  | 66 => "-FZRA" | 67 => "FZRA"
  | 71 => "-SN" | 73 => "SN" | 75 => "+SN"
  | 77 => "SG"
  | 80 => "-SHRA" | 81 => "SHRA" | 82 => "+SHRA"
  | 85 => "-SHSN" | 86 => "+SHSN"
  | 95 => "TS" | 96 => "TSRA" | 99 => "+TSRA"
  | _ => ""

/-- `_VIS_CAP_KM`: maximum plausible visibility (km) by WMO weather code. -/
def visCapKm (weather_code : ℕ) : Option ℚ :=
  match weather_code with
  | 45 => some 0.8 | 48 => some 0.8
  | 51 => some 8 | 53 => some 6 | 55 => some 3
  | 56 => some 2 | 57 => some 1.5
  | 61 => some 8 | 63 => some 6 | 65 => some 3
  | 66 => some 2 | 67 => some 1.5
  | 71 => some 8 | 73 => some 5 | 75 => some 2
  | 77 => some 5
  | 80 => some 8 | 81 => some 6 | 82 => some 2
  | 85 => some 6 | 86 => some 2
  | 95 => some 3 | 96 => some 1.5 | 99 => some 1.5
  | _ => none

/-- `get_visibility`: fallback METAR visibility group from the weather
code alone (`cloud_cover` is unused in the source, "reservado"). -/
def get_visibility (weather_code : ℕ) (cloud_cover : ℚ) : String :=
  match visCapKm weather_code with
  | none => "9999"
  | some cap =>
    let vis_m : ℤ := ratTrunc (cap * 1000)
    if vis_m ≥ 9999 then "9999"
    else zpad 4 (pyRound ((vis_m : ℚ) / 100) * 100)

/-- The `current_weather` dictionary handed to `generate_metar_lemr`
(the fields the function reads; `time` is replaced by the `day_hour`
parameter of `generate_metar_lemr`, see there). -/
structure CurrentWeather where
  temperature : Option ℚ
  humidity : Option ℚ
  wind_speed : Option ℚ
  wind_direction : Option ℚ
  wind_gusts : Option ℚ
  pressure : Option ℚ
  cloud_cover : Option ℚ
  weather_code : Option ℕ
deriving DecidableEq, Repr

/-- The space-separated groups assembled by `generate_metar_lemr` before
the final string is put together. -/
structure MetarGroups where
  wind_group : String
  visibility : String
  wx : String
  clouds : String
  temp_group : String
  qnh : String
deriving DecidableEq, Repr

/-- The fog branch guard of `generate_metar_lemr`
(`weather_code in [45, 48] or implicit_fog`), with
`implicit_fog = td_spread <= 1.0 and cloud_cover_low is not None and
cloud_cover_low > 87`. -/
def fogBranch (weather_code : ℕ) (td_spread : ℚ) (cloud_cover_low : Option ℤ) : Bool :=
  weather_code = 45 || weather_code = 48 ||
    (decide (td_spread ≤ 1) &&
      (match cloud_cover_low with
       | some c => decide (c > 87)
       | none => false))

/-- The gust guard of the wind group (`metar_generator.py` line 201):
Python `wind_gusts and (wind_gusts - wind_speed) >= 18.5` — the gust must
be present, truthy (non-zero) and at least 18.5 km/h above the mean. -/
def gustTruthyGe (wind_gusts : Option ℚ) (wind_speed : ℚ) : Bool :=
  match wind_gusts with
  | some gusts => decide (gusts ≠ 0) && decide (gusts - wind_speed ≥ 18.5)
  | none => false

/-- The wind-group construction of `generate_metar_lemr`
(`metar_generator.py` lines 189–205): calm / variable / directional, with
the gust suffix when the gust guard holds. -/
def windGroup (wind_speed wind_dir : ℚ) (wind_gusts : Option ℚ) : String :=
  let wind_kt : ℤ := kmh_to_knots wind_speed
  let wind_dir_rounded0 : ℤ := pyRound (wind_dir / 10) * 10
  let wind_dir_rounded : ℤ :=
    if wind_dir_rounded0 = 0 ∧ wind_kt > 0 then 360 else wind_dir_rounded0
  if wind_kt = 0 then "00000KT"
  else if wind_kt < 3 then "VRB" ++ zpad 2 wind_kt ++ "KT"
  else if gustTruthyGe wind_gusts wind_speed then
    zpad 3 wind_dir_rounded ++ zpad 2 wind_kt ++ "G" ++
      zpad 2 (kmh_to_knots (wind_gusts.getD 0)) ++ "KT"
  else zpad 3 wind_dir_rounded ++ zpad 2 wind_kt ++ "KT"

/-- The visibility-group construction of `generate_metar_lemr`
(`metar_generator.py` lines 207–225), before the implicit-fog override:
explicit fog forces `0800`; otherwise a supplied `visibility_km` is capped
by the weather code's plausible maximum; otherwise the code's cap alone is
used. -/
def visibilityPre (weather_code : ℕ) (visibility_km : Option ℚ) (cloud_cover : ℚ) : String :=
  if weather_code = 45 ∨ weather_code = 48 then "0800"
  else
    match visibility_km with
    | some vk =>
      let effective_km :=
        match visCapKm weather_code with
        | some cap => min vk cap
        | none => vk
      let vis_m : ℤ := ratTrunc (effective_km * 1000)
      if vis_m ≥ 9999 then "9999"
      else zpad 4 (max 100 (pyRound ((vis_m : ℚ) / 100) * 100))
    | none => get_visibility weather_code cloud_cover

/-- `lcl_hundreds` of `generate_metar_lemr` (`metar_generator.py` lines
235–236): the LCL estimate `(T − Td) × 400 ft`, rounded to 100 ft, floored
at 100 ft, in hundreds of feet. -/
def lclHundreds (temp dp_for_lcl : ℚ) : ℤ :=
  max 1 ((max 100 (pyRound ((temp - dp_for_lcl) * 400 / 100) * 100)).fdiv 100)

/-- The cloud-group construction and fog override of `generate_metar_lemr`
(`metar_generator.py` lines 243–270), returning the final
(visibility, wx, clouds) triple. -/
def fogAdjust (weather_code : ℕ) (td_spread : ℚ) (lcl_hundreds : ℤ)
    (cloud_cover_low : Option ℤ) (visibility wx : String) :
    String × String × String :=
  if fogBranch weather_code td_spread cloud_cover_low then
    let fog_ceiling := min lcl_hundreds 4
    let clouds := "OVC" ++ zpad 3 (max 1 fog_ceiling)
    if ¬(weather_code = 45 ∨ weather_code = 48) ∧ visibility = "9999" then
      if td_spread ≤ 0.5 then ("0300", (if wx = "" then "FG" else wx), clouds)
      else ("1000", (if wx = "" then "BR" else wx), clouds)
    else (visibility, wx, clouds)
  else
    let clouds : String :=
      match cloud_cover_low with
      | none => "NCD"
      | some ccl =>
        if ccl = 0 then "NCD"
        else if ccl ≤ 25 then "FEW" ++ zpad 3 lcl_hundreds
        else if ccl ≤ 50 then "SCT" ++ zpad 3 lcl_hundreds
        else if ccl ≤ 87 then "BKN" ++ zpad 3 lcl_hundreds
        else "OVC" ++ zpad 3 lcl_hundreds
    (visibility, wx, clouds)

/-- The `dp_for_lcl` / `dewpoint` value of `generate_metar_lemr`: the
supplied model dew point, or the Magnus estimate from temperature and
relative humidity. -/
def dpForLcl (log : ℚ → ℚ) (temp humidity : ℚ) (dewpoint_c : Option ℚ) : ℚ :=
  dewpoint_c.getD (calculate_dewpoint log temp humidity)

/-- The temperature/dew-point group of `generate_metar_lemr`
(`metar_generator.py` lines 272–280): signed rounding, `M` prefix for
negative values. -/
def tempDewGroup (temp dewpoint : ℚ) : String :=
  let temp_int := pyRound temp
  let dewpoint_int := pyRound dewpoint
  (if temp_int < 0 then "M" else "") ++ zpad 2 temp_int.natAbs ++ "/" ++
    (if dewpoint_int < 0 then "M" else "") ++ zpad 2 dewpoint_int.natAbs

/-- The group-building core of `generate_metar_lemr`
(`metar_generator.py` lines 160–293): wind group, visibility group,
phenomenon token, cloud group, temperature/dew-point group and QNH.
Returns `none` when a required field (temperature, humidity, wind speed,
wind direction, pressure) is absent. -/
def metarGroups (log : ℚ → ℚ) (cw : CurrentWeather)
    (visibility_km dewpoint_c : Option ℚ) (cloud_cover_low : Option ℤ) :
    Option MetarGroups :=
  match cw.temperature, cw.humidity, cw.wind_speed, cw.wind_direction, cw.pressure with
  | some temp, some humidity, some wind_speed, some wind_dir, some pressure =>
    let weather_code : ℕ := cw.weather_code.getD 0
    let dp_for_lcl := dpForLcl log temp humidity dewpoint_c
    let vxc := fogAdjust weather_code (temp - dp_for_lcl)
      (lclHundreds temp dp_for_lcl) cloud_cover_low
      (visibilityPre weather_code visibility_km (cw.cloud_cover.getD 0))
      (get_weather_phenomena weather_code)
    some ⟨windGroup wind_speed wind_dir cw.wind_gusts, vxc.1, vxc.2.1, vxc.2.2,
      tempDewGroup temp (dpForLcl log temp humidity dewpoint_c),
      "Q" ++ zpad 4 (pyRound pressure)⟩
  | _, _, _, _, _ => none

/-- `generate_metar_lemr` (`metar_generator.py` lines 133–309).  The
timestamp group depends on the wall clock / the `time` field and is
abstracted as the `day_hour` parameter; everything else follows the
source.  Returns `none` when a required field is absent. -/
def generate_metar_lemr (log : ℚ → ℚ) (current_weather : CurrentWeather)
    (icao day_hour : String) (visibility_km dewpoint_c : Option ℚ)
    (cloud_cover_low : Option ℤ) : Option String :=
  match metarGroups log current_weather visibility_km dewpoint_c cloud_cover_low with
  | none => none
  | some g =>
    let wx_str := if g.wx = "" then "" else " " ++ g.wx
    let use_cavok := g.visibility = "9999" ∧ g.wx = "" ∧ g.clouds = "NCD"
    let metar :=
      if use_cavok then
        "METAR " ++ icao ++ " " ++ day_hour ++ "Z AUTO " ++ g.wind_group ++
          " CAVOK " ++ g.temp_group ++ " " ++ g.qnh
      else
        "METAR " ++ icao ++ " " ++ day_hour ++ "Z AUTO " ++ g.wind_group ++ " " ++
          g.visibility ++ wx_str ++ " " ++ g.clouds ++ " " ++ g.temp_group ++ " " ++ g.qnh
    some (collapseSpaces metar)

/-! ### weather_service.py — fog-risk assessor -/

/-- One hourly forecast row as consumed by `_compute_fog_risk`. -/
structure FogHour where
  time : String
  temperature : Option ℚ
  dewpoint : Option ℚ
  wind_speed : Option ℚ
  precipitation_prob : Option ℚ
  weather_code : Option ℕ
  visibility : Option ℚ
deriving DecidableEq, Repr

/-- One entry of the `risky` list built by `_compute_fog_risk`. -/
structure RiskyEntry where
  time : String
  spread : ℚ
  wind : ℚ
  score : ℕ
  confirmed : Bool
deriving DecidableEq, Repr

/-- The result dictionary of `_compute_fog_risk`.  The source returns
dictionaries of three shapes (`{'level': None}`, `{'level': 'BAJO'}` and
the full dictionary); absent keys are modelled as `none` / `0` / `[]`. -/
structure FogRisk where
  level : Option String
  peak_hour : Option String
  min_spread : Option ℚ
  n_hours : ℕ
  operational_hours : List String
deriving DecidableEq, Repr

/-- The per-sample body of the `for h in fog_hours` loop of
`_compute_fog_risk` (`weather_service.py` lines 39–82): `none` when the
sample is skipped, otherwise the `risky` entry it appends.  Python
`h.get(k) or 0` (absent/`None`/`0` all give `0`) is `Option.getD _ 0`. -/
def riskyOfHour (h : FogHour) : Option RiskyEntry :=
  let wind := h.wind_speed.getD 0
  let pp := h.precipitation_prob.getD 0
  let wx := h.weather_code.getD 0
  if pp > 30 then none
  else if wx = 45 ∨ wx = 48 then
    some ⟨strSlice h.time 11 16, 0, pyRound1 wind, 5, true⟩
  else
    match h.temperature, h.dewpoint with
    | some temp, some dp =>
      let spread := temp - dp
      let base : Option ℕ :=
        if spread ≤ 2 then some 2
        else if spread ≤ 3 then some 1
        else none
      match base with
      | none => none
      | some b =>
        let s2 := b + (if wind ≤ 5 then 2 else if wind ≤ 10 then 1 else 0)
        let score := s2 +
          (match h.visibility with
           | some vis => if vis < 1 then 2 else if vis < 5 then 1 else 0
           | none => 0)
        if score ≥ 2 then
          some ⟨strSlice h.time 11 16, pyRound1 spread, pyRound1 wind, score, false⟩
        else none
    | _, _ => none

/-- Lexicographic string order used by Python `sorted` on `HH:MM` strings. -/
def strLtB (a b : String) : Bool :=
  decide (a < b)

/-- Insert into a sorted list of strings. -/
def insertSortedStr (x : String) : List String → List String
  | [] => [x]
  | y :: ys => if strLtB x y then x :: y :: ys else y :: insertSortedStr x ys

/-- Python `sorted(set(l))` on strings: deduplicate, then sort. -/
def sortedDedup (l : List String) : List String :=
  (l.eraseDups).foldr insertSortedStr []

/-- `_compute_fog_risk` (`weather_service.py` lines 35–109), taking the
already-filtered window `fog_hours` (the samples between 22:00 of the
previous day and 13:00 of the target day).  `{'level': None}` is the
`level := none` result. -/
def compute_fog_risk (fog_hours : List FogHour) : FogRisk :=
  if fog_hours = [] then ⟨none, none, none, 0, []⟩
  else
    match fog_hours.filterMap riskyOfHour with
    | [] => ⟨some "BAJO", none, none, 0, []⟩
    | r :: rs =>
      let risky := r :: rs
      let max_score := rs.foldl (fun a e => max a e.score) r.score
      let confirmed := risky.any (fun e => e.confirmed)
      let best := rs.foldl (fun acc e => if e.score > acc.score then e else acc) r
      let spreads := (risky.filter (fun e => !e.confirmed)).map (fun e => e.spread)
      let level :=
        if confirmed || decide (max_score ≥ 4) then "ALTO"
        else if max_score ≥ 3 then "MODERADO"
        else "BAJO"
      { level := some level
        peak_hour := some best.time
        min_spread :=
          match spreads with
          | [] => none
          | s :: ss => some (ss.foldl min s)
        n_hours := risky.length
        operational_hours :=
          sortedDedup (((risky.filter (fun e =>
            decide ("09:00" ≤ e.time) && decide (e.time ≤ "13:00"))).map (fun e => e.time))) }

/-! ### ai_service.py — convective-risk assessor -/

/-- The result dictionary of `_detect_convective_risk`. -/
structure ConvResult where
  has_convective_risk : Bool
  risk_level : String
  indicators : List String
  summary : String
deriving DecidableEq, Repr

/-- Python `f"{x:.0f}"` (half-to-even to an integer). -/
def fmtF0 (q : ℚ) : String :=
  let n := pyRound q
  (if n < 0 then "-" else "") ++ natStr n.natAbs

/-- Python `f"{x:.1f}"` (half-to-even to one decimal). -/
def fmtF1 (q : ℚ) : String :=
  let n := pyRound (q * 10)
  (if n < 0 then "-" else "") ++ natStr (n.natAbs / 10) ++ "." ++ natStr (n.natAbs % 10)

/-- CAPE indicator of `_detect_convective_risk`: appended indicator lines
and the `indicators_met` contribution (Python truthiness: `cape and
cape > 500`). -/
def capeIndicator (cape : Option ℚ) : List String × ℚ :=
  match cape with
  | some c =>
    if c ≠ 0 ∧ c > 500 then (["🔴 CAPE " ++ fmtF0 c ++ " J/kg"], 1)
    else if c ≠ 0 ∧ c > 250 then (["🟡 CAPE " ++ fmtF0 c ++ " J/kg"], 0)
    else ([], 0)
  | none => ([], 0)

/-- Precipitation indicator (`precipitation and precipitation > 0`). -/
def precipIndicator (precipitation : Option ℚ) : List String × ℚ :=
  match precipitation with
  | some p =>
    if p ≠ 0 ∧ p > 0 then (["🔴 Precip " ++ fmtF1 p ++ " mm/h"], 1)
    else ([], 0)
  | none => ([], 0)

/-- Gust-minus-mean-wind indicator (knots; both speeds must be truthy and
the mean strictly positive). -/
def gustIndicator (wind_speed_kmh wind_gusts_kmh : Option ℚ) : List String × ℚ :=
  match wind_speed_kmh, wind_gusts_kmh with
  | some w, some g =>
    if w ≠ 0 ∧ g ≠ 0 ∧ w > 0 then
      let gust_diff_kt := g / 1.852 - w / 1.852
      if gust_diff_kt ≥ 8 then (["🔴 Racha Δ " ++ fmtF1 gust_diff_kt ++ " kt"], 1)
      else if gust_diff_kt ≥ 5 then (["🟡 Racha Δ " ++ fmtF1 gust_diff_kt ++ " kt"], 0)
      else ([], 0)
    else ([], 0)
  | _, _ => ([], 0)

/-- Low-cloud-cover indicator (`cloud_cover_low and cloud_cover_low > 50`;
only `> 75` contributes weight, and only 0.5). -/
def cloudIndicator (cloud_cover_low : Option ℚ) : List String × ℚ :=
  match cloud_cover_low with
  | some c =>
    if c ≠ 0 ∧ c > 50 then
      (["🟡 Nubes baja " ++ fmtF0 c ++ "%"], if c > 75 then 0.5 else 0)
    else ([], 0)
  | none => ([], 0)

/-- Lifted-index indicator (`lifted_index and lifted_index < -6`). -/
def liftedIndicator (lifted_index : Option ℚ) : List String × ℚ :=
  match lifted_index with
  | some li =>
    if li ≠ 0 ∧ li < -6 then
      (["🔴 Lifted Index " ++ fmtF1 li ++ " (tormentas fuertes)"], 1)
    else if li ≠ 0 ∧ li < -3 then
      (["🟡 Lifted Index " ++ fmtF1 li ++ " (probable)"], 0)
    else ([], 0)
  | none => ([], 0)

/-- The thunderstorm filter of `_detect_convective_risk`
(`weather_code and weather_code in (95, 96, 99)`). -/
def wcStorm (weather_code : Option ℕ) : Bool :=
  match weather_code with
  | some w => decide (w ≠ 0) && (w = 95 || w = 96 || w = 99)
  | none => false

/-- The scoring tail of `_detect_convective_risk`: combine the five
indicator contributions and map the accumulated `indicators_met` weight to
a level. -/
def convShape (i1 i2 i3 i4 i5 : List String × ℚ) : ConvResult :=
  let indicators := i1.1 ++ i2.1 ++ i3.1 ++ i4.1 ++ i5.1
  let indicators_met : ℚ := i1.2 + i2.2 + i3.2 + i4.2 + i5.2
  if indicators_met ≥ 3 then
      ⟨true, "CRÍTICO", indicators,
        "⚠️⚠️ RIESGO CONVECTIVO CRÍTICO - Más de 3 indicadores presentes. Posibilidad muy alta de tormentas/cumulonimbos. ❌ NO VOLAR"⟩
    else if indicators_met ≥ 2.5 then
      ⟨true, "ALTO", indicators,
        "⚠️ RIESGO CONVECTIVO ALTO - Múltiples indicadores presentes. Posibilidad significativa de desarrollo convectivo. Reconsiderar vuelo."⟩
    else if indicators_met ≥ 1.5 then
      ⟨true, "MODERADO", indicators,
        "⚠️ RIESGO CONVECTIVO MODERADO - Algunos indicadores presentes. Monitora evolución meteorológica."⟩
    else if indicators ≠ [] then
      ⟨false, "BAJO", indicators,
        "🟡 RIESGO CONVECTIVO BAJO - Indicadores débiles o aislados."⟩
    else
      ⟨false, "NULO", indicators, "✅ Sin indicadores de convección probable."⟩

/-- `_detect_convective_risk` (`ai_service.py` lines 465–575). -/
def detect_convective_risk (cape precipitation wind_speed_kmh wind_gusts_kmh
    cloud_cover_low : Option ℚ) (weather_code : Option ℕ)
    (lifted_index : Option ℚ) : ConvResult :=
  if cape = none ∧ precipitation = none ∧ wind_speed_kmh = none ∧
      wind_gusts_kmh = none ∧ cloud_cover_low = none ∧ weather_code = none ∧
      lifted_index = none then
    ⟨false, "NULO", [], "Datos insuficientes para evaluar riesgo convectivo"⟩
  else if wcStorm weather_code then
    ⟨true, "CRÍTICO", ["🔴 CÓDIGO 95-99: TORMENTA ACTIVA"],
      "⚠️⚠️ RIESGO CONVECTIVO CRÍTICO - Código WMO 95-99 detectado. Tormenta activa en zona. ❌ NO VOLAR"⟩
  else
    convShape (capeIndicator cape) (precipIndicator precipitation)
      (gustIndicator wind_speed_kmh wind_gusts_kmh) (cloudIndicator cloud_cover_low)
      (liftedIndicator lifted_index)

/-! ### RunwayResolver — modelled from the spec

No code in the repository computes runway wind components: the
computation is delegated to the external language model through the
prompt text of `ai_service.py` (section "ANÁLISIS DE PISTA").  The
definitions below therefore follow the specification §4.1/§4.4. -/

/-- Modelled from the spec: degrees to radians (the spec's trigonometry
is stated over angles in degrees; no such code exists in `src/`). -/
noncomputable def deg2rad (x : ℝ) : ℝ :=
  x * Real.pi / 180

/-- Modelled from the spec: `normalize_angle_delta(wind_dir,
runway_heading) = ((wind_dir − runway_heading + 180) mod 360) − 180`
(no such code exists in `src/`). -/
noncomputable def normalize_angle_delta (wind_dir runway_heading : ℝ) : ℝ :=
  (wind_dir - runway_heading + 180) -
    360 * ⌊(wind_dir - runway_heading + 180) / 360⌋ - 180

/-- Modelled from the spec: `headwind = speed × cos(angle)` where
`angle = normalize_angle_delta(wind_dir, heading)` (no such code exists
in `src/`). -/
noncomputable def headwind (speed wind_dir heading : ℝ) : ℝ :=
  speed * Real.cos (deg2rad (normalize_angle_delta wind_dir heading))

/-- Modelled from the spec: `crosswind = |speed × sin(angle)|` (no such
code exists in `src/`). -/
noncomputable def crosswind (speed wind_dir heading : ℝ) : ℝ :=
  |speed * Real.sin (deg2rad (normalize_angle_delta wind_dir heading))|

/-- Internal coherence of a convective-risk result: an elevated level
implies the risk flag and non-empty evidence, and the `NULO` level implies
empty evidence. -/
def coherent (r : ConvResult) : Prop :=
  ((r.risk_level = "MODERADO" ∨ r.risk_level = "ALTO" ∨ r.risk_level = "CRÍTICO") →
    r.has_convective_risk = true ∧ r.indicators ≠ []) ∧
  (r.risk_level = "NULO" → r.indicators = [])

/-! ## Theorems -/

/-- Normalisation shifts the angle by a whole number of turns, so the
cosine is unchanged. -/
theorem cos_deg2rad_normalize (d h : ℝ) :
    Real.cos (deg2rad (normalize_angle_delta d h)) = Real.cos (deg2rad (d - h)) := by
  have key : deg2rad (normalize_angle_delta d h)
      = deg2rad (d - h) + (-⌊(d - h + 180) / 360⌋ : ℤ) * (2 * Real.pi) := by
    unfold deg2rad normalize_angle_delta
    push_cast
    ring
  rw [key, Real.cos_add_int_mul_two_pi]

/-- Normalisation shifts the angle by a whole number of turns, so the sine
is unchanged. -/
theorem sin_deg2rad_normalize (d h : ℝ) :
    Real.sin (deg2rad (normalize_angle_delta d h)) = Real.sin (deg2rad (d - h)) := by
  have key : deg2rad (normalize_angle_delta d h)
      = deg2rad (d - h) + (-⌊(d - h + 180) / 360⌋ : ℤ) * (2 * Real.pi) := by
    unfold deg2rad normalize_angle_delta
    push_cast
    ring
  rw [key, Real.sin_add_int_mul_two_pi]

/-- Head- and crosswind components always recompose to the wind speed. -/
theorem runway_pythagoras (v d h : ℝ) :
    headwind v d h ^ 2 + crosswind v d h ^ 2 = v ^ 2 := by
  unfold headwind crosswind
  rw [sq_abs]
  have hsum := Real.sin_sq_add_cos_sq (deg2rad (normalize_angle_delta d h))
  have expand :
      (v * Real.cos (deg2rad (normalize_angle_delta d h))) ^ 2 +
        (v * Real.sin (deg2rad (normalize_angle_delta d h))) ^ 2 =
      v ^ 2 * (Real.sin (deg2rad (normalize_angle_delta d h)) ^ 2 +
        Real.cos (deg2rad (normalize_angle_delta d h)) ^ 2) := by
    ring
  rw [expand, hsum, mul_one]

/-- C5: for every wind speed `v ≥ 0`, wind direction, and pair of runway
headings 180° apart, the computed components satisfy
`headwind(v,h₁) = -headwind(v,h₂)`, `crosswind(v,h₁) = crosswind(v,h₂)`,
and `headwind² + crosswind² = v²` for each end.  (Runway components are
modelled from the spec; the repository delegates this computation to the
external language model.) -/
theorem claim_C5_runway_pair_components (v d h₁ h₂ : ℝ) (hv : 0 ≤ v)
    (hpair : h₂ = h₁ + 180) :
    headwind v d h₁ = -headwind v d h₂ ∧
    crosswind v d h₁ = crosswind v d h₂ ∧
    headwind v d h₁ ^ 2 + crosswind v d h₁ ^ 2 = v ^ 2 ∧
    headwind v d h₂ ^ 2 + crosswind v d h₂ ^ 2 = v ^ 2 := by
  subst hpair
  have hshift : deg2rad (d - (h₁ + 180)) = deg2rad (d - h₁) - Real.pi := by
    unfold deg2rad
    ring
  have hcos : Real.cos (deg2rad (normalize_angle_delta d (h₁ + 180)))
      = -Real.cos (deg2rad (normalize_angle_delta d h₁)) := by
    rw [cos_deg2rad_normalize d (h₁ + 180), cos_deg2rad_normalize d h₁, hshift,
      Real.cos_sub_pi]
  have hsin : Real.sin (deg2rad (normalize_angle_delta d (h₁ + 180)))
      = -Real.sin (deg2rad (normalize_angle_delta d h₁)) := by
    rw [sin_deg2rad_normalize d (h₁ + 180), sin_deg2rad_normalize d h₁, hshift,
      Real.sin_sub_pi]
  refine ⟨?_, ?_, runway_pythagoras v d h₁, runway_pythagoras v d (h₁ + 180)⟩
  · unfold headwind
    rw [hcos]
    ring
  · unfold crosswind
    rw [hsin]
    rw [show v * -Real.sin (deg2rad (normalize_angle_delta d h₁))
        = -(v * Real.sin (deg2rad (normalize_angle_delta d h₁))) from by ring, abs_neg]

/-- C5 witness: the spec scenario, wind from 270° at 18 kt against the
100°/280° runway pair. -/
theorem claim_C5_witness :
    (0 : ℝ) ≤ 18 ∧ ((280 : ℝ) = 100 + 180) ∧
    (headwind 18 270 100 = -headwind 18 270 280 ∧
     crosswind 18 270 100 = crosswind 18 270 280 ∧
     headwind 18 270 100 ^ 2 + crosswind 18 270 100 ^ 2 = 18 ^ 2 ∧
     headwind 18 270 280 ^ 2 + crosswind 18 270 280 ^ 2 = 18 ^ 2) :=
  ⟨by norm_num, by norm_num,
    claim_C5_runway_pair_components 18 270 100 280 (by norm_num) (by norm_num)⟩

/-- An empty CAPE indicator line list means a zero CAPE weight. -/
theorem capeIndicator_empty (c : Option ℚ) :
    (capeIndicator c).1 = [] → (capeIndicator c).2 = 0 := by
  rcases c with _ | v
  · intro _; rfl
  · simp only [capeIndicator]
    split_ifs <;> simp_all

/-- An empty precipitation indicator line list means a zero weight. -/
theorem precipIndicator_empty (p : Option ℚ) :
    (precipIndicator p).1 = [] → (precipIndicator p).2 = 0 := by
  rcases p with _ | v
  · intro _; rfl
  · simp only [precipIndicator]
    split_ifs <;> simp_all

/-- An empty gust indicator line list means a zero weight. -/
theorem gustIndicator_empty (w g : Option ℚ) :
    (gustIndicator w g).1 = [] → (gustIndicator w g).2 = 0 := by
  rcases w with _ | w <;> rcases g with _ | g
  · intro _; rfl
  · intro _; rfl
  · intro _; rfl
  · simp only [gustIndicator]
    split_ifs <;> simp_all

/-- An empty cloud indicator line list means a zero weight. -/
theorem cloudIndicator_empty (c : Option ℚ) :
    (cloudIndicator c).1 = [] → (cloudIndicator c).2 = 0 := by
  rcases c with _ | v
  · intro _; rfl
  · simp only [cloudIndicator]
    split_ifs <;> simp_all

/-- An empty lifted-index indicator line list means a zero weight. -/
theorem liftedIndicator_empty (li : Option ℚ) :
    (liftedIndicator li).1 = [] → (liftedIndicator li).2 = 0 := by
  rcases li with _ | v
  · intro _; rfl
  · simp only [liftedIndicator]
    split_ifs <;> simp_all

/-- The scoring tail is coherent whenever each indicator pair has zero
weight when it contributed no evidence line. -/
theorem convShape_coherent (i1 i2 i3 i4 i5 : List String × ℚ)
    (e1 : i1.1 = [] → i1.2 = 0) (e2 : i2.1 = [] → i2.2 = 0)
    (e3 : i3.1 = [] → i3.2 = 0) (e4 : i4.1 = [] → i4.2 = 0)
    (e5 : i5.1 = [] → i5.2 = 0) :
    coherent (convShape i1 i2 i3 i4 i5) := by
  have hne : 0 < i1.2 + i2.2 + i3.2 + i4.2 + i5.2 →
      i1.1 ++ i2.1 ++ i3.1 ++ i4.1 ++ i5.1 ≠ [] := by
    intro hpos hnil
    simp only [List.append_eq_nil] at hnil
    obtain ⟨⟨⟨⟨a1, a2⟩, a3⟩, a4⟩, a5⟩ := hnil
    rw [e1 a1, e2 a2, e3 a3, e4 a4, e5 a5] at hpos
    norm_num at hpos
  unfold coherent
  simp only [convShape]
  split_ifs with h1 h2 h3 h4
  · exact ⟨fun _ => ⟨rfl, hne (by linarith)⟩, fun hx => by simp at hx⟩
  · exact ⟨fun _ => ⟨rfl, hne (by linarith)⟩, fun hx => by simp at hx⟩
  · exact ⟨fun _ => ⟨rfl, hne (by linarith)⟩, fun hx => by simp at hx⟩
  · exact ⟨fun hx => by simp at hx, fun hx => by simp at hx⟩
  · exact ⟨fun hx => by simp at hx, fun _ => not_not.mp h4⟩

/-- C10: the convective assessor's result is internally coherent for every
input — a `MODERADO`/`ALTO`/`CRÍTICO` level comes with the risk flag set
and non-empty evidence, and a `NULO` level comes with empty evidence. -/
theorem claim_C10_convective_coherence
    (cape precipitation wind_speed_kmh wind_gusts_kmh cloud_cover_low : Option ℚ)
    (weather_code : Option ℕ) (lifted_index : Option ℚ) :
    coherent (detect_convective_risk cape precipitation wind_speed_kmh
      wind_gusts_kmh cloud_cover_low weather_code lifted_index) := by
  unfold detect_convective_risk
  split_ifs with h1 h2
  · exact ⟨fun hx => absurd hx (by decide), fun _ => rfl⟩
  · exact ⟨fun _ => ⟨rfl, by simp⟩, fun hx => absurd hx (by decide)⟩
  · exact convShape_coherent _ _ _ _ _ (capeIndicator_empty cape)
      (precipIndicator_empty precipitation)
      (gustIndicator_empty wind_speed_kmh wind_gusts_kmh)
      (cloudIndicator_empty cloud_cover_low) (liftedIndicator_empty lifted_index)

/-- C10 witness: the coherence property at a concrete input. -/
theorem claim_C10_witness :
    coherent (detect_convective_risk (some 600) (some 1) none none none none none) :=
  claim_C10_convective_coherence (some 600) (some 1) none none none none none

/-- C7: an explicit thunderstorm weather code (95, 96 or 99) always gives
the `CRÍTICO` convective level, regardless of every other input. -/
theorem claim_C7_thunderstorm_critico
    (cape precipitation wind_speed_kmh wind_gusts_kmh cloud_cover_low : Option ℚ)
    (lifted_index : Option ℚ) (w : ℕ) (hstorm : w = 95 ∨ w = 96 ∨ w = 99) :
    (detect_convective_risk cape precipitation wind_speed_kmh wind_gusts_kmh
      cloud_cover_low (some w) lifted_index).risk_level = "CRÍTICO" := by
  have hb : wcStorm (some w) = true := by
    rcases hstorm with h | h | h <;> subst h <;> decide
  unfold detect_convective_risk
  rw [if_neg (by rintro ⟨-, -, -, -, -, hwc, -⟩; exact Option.noConfusion hwc), if_pos hb]

/-- C7 witness: thunderstorm-with-hail code 96 with strong contrary
indicators still yields `CRÍTICO`. -/
theorem claim_C7_witness :
    ((96 : ℕ) = 95 ∨ (96 : ℕ) = 96 ∨ (96 : ℕ) = 99) ∧
    (detect_convective_risk (some 10) (some 0) (some 5) (some 6) (some 10)
      (some 96) (some 5)).risk_level = "CRÍTICO" :=
  ⟨by decide,
    claim_C7_thunderstorm_critico (some 10) (some 0) (some 5) (some 6) (some 10)
      (some 5) 96 (by decide)⟩

/-- C1 counterexample: a report text of length ≥ 10 from which neither a
ceiling nor a visibility can be extracted is classified `VFR`, not the
Unknown category `DESCONOCIDO`. -/
theorem claim_C1_counterexample :
    extractVisibilityM "LEMR 121200Z NOSIG" = none ∧
    findCeilings "LEMR 121200Z NOSIG".data = [] ∧
    classify_flight_category "LEMR 121200Z NOSIG" = FlightCat.VFR ∧
    classify_flight_category "LEMR 121200Z NOSIG" ≠ FlightCat.DESCONOCIDO := by
  refine ⟨by decide, by decide, by decide, by decide⟩

/-- C1 (amended): when neither a ceiling nor a visibility can be
extracted, the classifier returns `DESCONOCIDO` only for an empty or
short (< 10 characters) report text; for any longer text it returns
`VFR`. -/
theorem claim_C1_unextractable_classification (metar : String)
    (hv : extractVisibilityM metar = none)
    (hc : findCeilings metar.data = []) :
    classify_flight_category metar =
      if metar.length < 10 then FlightCat.DESCONOCIDO else FlightCat.VFR := by
  unfold classify_flight_category
  by_cases hlen : metar.length < 10
  · simp [hlen]
  · simp [hlen, hv, hc, flightCategoryOf, ltOpt, leOpt]

/-- C1 witness: the amended statement at a concrete unparseable text. -/
theorem claim_C1_witness :
    extractVisibilityM "METAR LEMR NIL" = none ∧
    findCeilings "METAR LEMR NIL".data = [] ∧
    classify_flight_category "METAR LEMR NIL" =
      (if ("METAR LEMR NIL" : String).length < 10 then FlightCat.DESCONOCIDO
       else FlightCat.VFR) :=
  ⟨by decide, by decide,
    claim_C1_unextractable_classification "METAR LEMR NIL" (by decide) (by decide)⟩

/-- C8: the classification decision is monotonic — lowering the ceiling
(or the visibility) never yields a strictly less restrictive category. -/
theorem claim_C8_classification_monotonic :
    (∀ c₁ c₂ v, c₁ ≤ c₂ →
      restrictiveness (flightCategoryOf (some c₂) v) ≤
        restrictiveness (flightCategoryOf (some c₁) v)) ∧
    (∀ c v₁ v₂, v₁ ≤ v₂ →
      restrictiveness (flightCategoryOf c (some v₂)) ≤
        restrictiveness (flightCategoryOf c (some v₁))) := by
  constructor
  · intro c₁ c₂ v h
    rcases v with _ | vv <;>
      · simp only [flightCategoryOf, ltOpt, leOpt]
        split_ifs <;>
          simp_all [restrictiveness, Bool.or_eq_true, decide_eq_true_eq] <;> omega
  · intro c v₁ v₂ h
    rcases c with _ | cc <;>
      · simp only [flightCategoryOf, ltOpt, leOpt]
        split_ifs <;>
          simp_all [restrictiveness, Bool.or_eq_true, decide_eq_true_eq] <;> omega

/-- C8 witness: monotonicity at concrete ceiling and visibility pairs. -/
theorem claim_C8_witness :
    (400 : ℕ) ≤ 2000 ∧ (2000 : ℕ) ≤ 6000 ∧
    restrictiveness (flightCategoryOf (some 2000) (some 9999)) ≤
      restrictiveness (flightCategoryOf (some 400) (some 9999)) ∧
    restrictiveness (flightCategoryOf (some 4000) (some 6000)) ≤
      restrictiveness (flightCategoryOf (some 4000) (some 2000)) :=
  ⟨by decide, by decide,
    claim_C8_classification_monotonic.1 400 2000 (some 9999) (by decide),
    claim_C8_classification_monotonic.2 (some 4000) 2000 6000 (by decide)⟩

/-- C3 counterexample: a non-empty window whose single sample is skipped
by the precipitation filter (pp = 50 > 30) yields level `BAJO`, not the
absent level. -/
theorem claim_C3_counterexample :
    ((⟨"2024-01-02T03:00", some 10, some 9, some 2, some 50, some 0, none⟩ :
        FogHour).precipitation_prob.getD 0 > 30) ∧
    (compute_fog_risk
      [⟨"2024-01-02T03:00", some 10, some 9, some 2, some 50, some 0, none⟩]).level =
      some "BAJO" ∧
    (compute_fog_risk
      [⟨"2024-01-02T03:00", some 10, some 9, some 2, some 50, some 0, none⟩]).level ≠
      none :=
  ⟨by decide, by decide, by decide⟩

/-- C3 (amended): only an empty window yields the absent level; a
non-empty window in which every sample is skipped by the precipitation
filter yields `BAJO` (still distinguishable from the absent level). -/
theorem claim_C3_all_skipped_bajo (hours : List FogHour) (hne : hours ≠ [])
    (hpp : ∀ h ∈ hours, (h.precipitation_prob.getD 0) > 30) :
    (compute_fog_risk hours).level = some "BAJO" ∧
    (compute_fog_risk hours).level ≠ none := by
  have hrisky : hours.filterMap riskyOfHour = [] := by
    rw [List.filterMap_eq_nil_iff]
    intro h hmem
    simp only [riskyOfHour]
    rw [if_pos (hpp h hmem)]
  have hlevel : (compute_fog_risk hours).level = some "BAJO" := by
    unfold compute_fog_risk
    rw [if_neg hne, hrisky]
  exact ⟨hlevel, by rw [hlevel]; exact Option.noConfusion⟩

/-- C3 witness: the amended statement at a concrete one-sample window. -/
theorem claim_C3_witness :
    ([⟨"2024-01-02T06:00", some 8, some 8, some 1, some 80, some 45, none⟩] :
        List FogHour) ≠ [] ∧
    (compute_fog_risk
      [⟨"2024-01-02T06:00", some 8, some 8, some 1, some 80, some 45, none⟩]).level =
      some "BAJO" ∧
    (compute_fog_risk
      [⟨"2024-01-02T06:00", some 8, some 8, some 1, some 80, some 45, none⟩]).level ≠
      none :=
  ⟨by decide,
    (claim_C3_all_skipped_bajo _ (by decide) (by decide)).1,
    (claim_C3_all_skipped_bajo _ (by decide) (by decide)).2⟩

/-- C4 counterexample: a window containing an explicit-fog sample
(code 45) whose precipitation probability is 50 yields `BAJO`, not at
least `ALTO` — the precipitation filter runs before the fog check. -/
theorem claim_C4_counterexample :
    ((⟨"2024-01-02T04:00", some 10, some 10, some 2, some 50, some 45, none⟩ :
        FogHour).weather_code.getD 0 = 45) ∧
    (compute_fog_risk
      [⟨"2024-01-02T04:00", some 10, some 10, some 2, some 50, some 45, none⟩]).level =
      some "BAJO" ∧
    (compute_fog_risk
      [⟨"2024-01-02T04:00", some 10, some 10, some 2, some 50, some 45, none⟩]).level ≠
      some "ALTO" :=
  ⟨by decide, by decide, by decide⟩

/-- C4 (amended): a window sample with an explicit fog phenomenon that
passes the precipitation filter (pp ≤ 30) always forces level `ALTO`,
regardless of the sample's other fields. -/
theorem claim_C4_fog_sample_alto (hours : List FogHour) (h : FogHour)
    (hmem : h ∈ hours)
    (hwx : h.weather_code.getD 0 = 45 ∨ h.weather_code.getD 0 = 48)
    (hpp : ¬(h.precipitation_prob.getD 0 > 30)) :
    (compute_fog_risk hours).level = some "ALTO" := by
  have hsome : riskyOfHour h =
      some ⟨strSlice h.time 11 16, 0, pyRound1 (h.wind_speed.getD 0), 5, true⟩ := by
    simp only [riskyOfHour]
    rw [if_neg hpp, if_pos hwx]
  have hmem' : (⟨strSlice h.time 11 16, 0, pyRound1 (h.wind_speed.getD 0), 5, true⟩ :
      RiskyEntry) ∈ hours.filterMap riskyOfHour :=
    List.mem_filterMap.2 ⟨h, hmem, hsome⟩
  unfold compute_fog_risk
  rw [if_neg (List.ne_nil_of_mem hmem)]
  rcases hlist : hours.filterMap riskyOfHour with _ | ⟨r, rs⟩
  · rw [hlist] at hmem'
    exact absurd hmem' (List.not_mem_nil _)
  · rw [hlist] at hmem'
    have hconf : (r :: rs).any (fun e => e.confirmed) = true :=
      List.any_eq_true.2 ⟨_, hmem', rfl⟩
    simp only [hconf, Bool.true_or, if_true]

/-- C4 witness: the amended statement at a concrete two-sample window. -/
theorem claim_C4_witness :
    ((⟨"2024-01-02T05:00", none, none, some 120, some 10, some 48, none⟩ :
        FogHour) ∈
      ([⟨"2024-01-01T23:00", some 10, some 2, some 30, some 0, some 0, none⟩,
        ⟨"2024-01-02T05:00", none, none, some 120, some 10, some 48, none⟩] :
        List FogHour)) ∧
    (compute_fog_risk
      [⟨"2024-01-01T23:00", some 10, some 2, some 30, some 0, some 0, none⟩,
       ⟨"2024-01-02T05:00", none, none, some 120, some 10, some 48, none⟩]).level =
      some "ALTO" :=
  ⟨by decide,
    claim_C4_fog_sample_alto _
      ⟨"2024-01-02T05:00", none, none, some 120, some 10, some 48, none⟩
      (by decide) (by decide) (by decide)⟩

/-- No decimal digit character is the letter `G`. -/
theorem digitChar_ne_G (d : ℕ) : digitChar d ≠ 'G' := by
  unfold digitChar
  split_ifs <;> decide

/-- Decimal renderings never contain the letter `G`. -/
theorem natDigitsAux_no_G (fuel n : ℕ) : 'G' ∉ natDigitsAux n fuel := by
  induction fuel generalizing n with
  | zero => exact List.not_mem_nil _
  | succ fuel ih =>
    rw [natDigitsAux]
    split_ifs with h
    · intro hmem
      rw [List.mem_singleton] at hmem
      exact digitChar_ne_G n hmem.symm
    · intro hmem
      rcases List.mem_append.1 hmem with hm | hm
      · exact ih (n / 10) hm
      · rw [List.mem_singleton] at hm
        exact digitChar_ne_G (n % 10) hm.symm

/-- Decimal renderings never contain the letter `G`. -/
theorem natDigits_no_G (n : ℕ) : 'G' ∉ natDigits n :=
  natDigitsAux_no_G (n + 1) n

/-- Zero-padded numbers never contain the letter `G`. -/
theorem zpad_no_G (w : ℕ) (n : ℤ) : 'G' ∉ (zpad w n).data := by
  unfold zpad natStr
  intro hmem
  split_ifs at hmem <;>
    simp only [String.data_append, List.mem_append] at hmem <;>
    rcases hmem with (hm | hm) | hm <;>
    first
      | (revert hm; decide)
      | exact absurd (List.eq_of_mem_replicate hm) (by decide)
      | exact natDigits_no_G n.natAbs hm

/-- Concrete knot conversions, proved by rational arithmetic (the literal
0.539957 does not normalise by kernel reduction). -/
theorem kt0 : kmh_to_knots 0 = 0 := by
  norm_num [kmh_to_knots, pyRound]

/-- 10 km/h is 5 kt after rounding. -/
theorem kt10 : kmh_to_knots 10 = 5 := by
  norm_num [kmh_to_knots, pyRound]

/-- 28 km/h is 15 kt after rounding. -/
theorem kt28 : kmh_to_knots 28 = 15 := by
  norm_num [kmh_to_knots, pyRound]

/-- 30 km/h is 16 kt after rounding. -/
theorem kt30 : kmh_to_knots 30 = 16 := by
  norm_num [kmh_to_knots, pyRound]

/-- 120 km/h is 65 kt after rounding. -/
theorem kt120 : kmh_to_knots 120 = 65 := by
  norm_num [kmh_to_knots, pyRound]

/-- The wind group for 10 km/h from 270° with a 28 km/h gust: no gust
component (28 − 10 < 18.5). -/
theorem windGroup_10_270_28 : windGroup 10 270 (some 28) = "27005KT" := by
  with_unfolding_all rfl

/-- The wind group for 10 km/h from 270° with a 30 km/h gust: gust
component present (30 − 10 ≥ 18.5). -/
theorem windGroup_10_270_30 : windGroup 10 270 (some 30) = "27005G16KT" := by
  with_unfolding_all rfl

/-- C6 counterexample: a sample accepted by the encoder with wind
10 km/h (5 kt) and gust 28 km/h (15 kt): the knot difference is
15 − 5 = 10 ≥ 10, yet the wind group carries no gust component because
28 − 10 = 18 km/h < 18.5 km/h. -/
theorem claim_C6_counterexample :
    kmh_to_knots 28 - kmh_to_knots 10 = 10 ∧
    (metarGroups (fun _ => 0)
      ⟨some 10, some 50, some 10, some 270, some 28, some 1013, some 0, some 0⟩
      none (some 5) none).map (fun g => g.wind_group) = some "27005KT" ∧
    hasChar "27005KT" 'G' = false := by
  refine ⟨by rw [kt10, kt28]; decide, ?_, by decide⟩
  simp only [metarGroups]
  rw [windGroup_10_270_28]
  rfl

/-- The wind group of a ≥ 3 kt sample with a present gust carries the `G`
component exactly when the gust is truthy and exceeds the mean wind by at
least 18.5 km/h. -/
theorem windGroup_gust_iff (ws wd gu : ℚ) (hkt : kmh_to_knots ws ≥ 3) :
    hasChar (windGroup ws wd (some gu)) 'G' = true ↔ (gu ≠ 0 ∧ gu - ws ≥ 18.5) := by
  unfold windGroup hasChar
  rw [if_neg (by omega : ¬kmh_to_knots ws = 0), if_neg (by omega : ¬kmh_to_knots ws < 3)]
  by_cases hc : gu ≠ 0 ∧ gu - ws ≥ 18.5
  · have hb : gustTruthyGe (some gu) ws = true := by
      simp only [gustTruthyGe, Bool.and_eq_true, decide_eq_true_eq]
      exact hc
    rw [if_pos hb]
    constructor
    · intro _
      exact hc
    · intro _
      simp only [decide_eq_true_eq, String.data_append, List.mem_append]
      exact Or.inl (Or.inl (Or.inr (by decide)))
  · have hb : gustTruthyGe (some gu) ws = false := by
      simp only [gustTruthyGe, Bool.and_eq_false_iff, decide_eq_false_iff_not]
      exact not_and_or.mp hc
    rw [hb]
    rw [if_neg (by decide : ¬(false = true))]
    constructor
    · intro hmem
      exfalso
      simp only [decide_eq_true_eq, String.data_append, List.mem_append] at hmem
      rcases hmem with (hm | hm) | hm
      · exact zpad_no_G _ _ hm
      · exact zpad_no_G _ _ hm
      · revert hm
        decide
    · intro h
      exact absurd h hc

/-- C6 (amended): for every sample accepted by the encoder with wind
speed of at least 3 kt and a present gust value, the wind group carries
the gust component if and only if the gust is non-zero and exceeds the
mean wind by at least 18.5 km/h (the source compares in km/h, not in
rounded knots). -/
theorem claim_C6_gust_threshold (log : ℚ → ℚ) (cw : CurrentWeather)
    (visibility_km dewpoint_c : Option ℚ) (cloud_cover_low : Option ℤ)
    (g : MetarGroups) (ws gu : ℚ)
    (hg : metarGroups log cw visibility_km dewpoint_c cloud_cover_low = some g)
    (hws : cw.wind_speed = some ws) (hgu : cw.wind_gusts = some gu)
    (hkt : kmh_to_knots ws ≥ 3) :
    hasChar g.wind_group 'G' = true ↔ (gu ≠ 0 ∧ gu - ws ≥ 18.5) := by
  rcases cw with ⟨ct, chm, cws, cwd, cwg, cp, ccc, cwc⟩
  simp only at hws hgu
  subst hws hgu
  rcases ct with _ | t
  · exact absurd hg (by simp [metarGroups])
  rcases chm with _ | hum
  · exact absurd hg (by simp [metarGroups])
  rcases cwd with _ | wd
  · exact absurd hg (by simp [metarGroups])
  rcases cp with _ | p
  · exact absurd hg (by simp [metarGroups])
  simp only [metarGroups] at hg
  cases Option.some.inj hg
  exact windGroup_gust_iff ws wd gu hkt

set_option maxRecDepth 8000 in
/-- The full group set for the concrete C6 witness sample. -/
theorem metarGroups_C6_sample :
    metarGroups (fun _ => 0)
      ⟨some 10, some 50, some 10, some 270, some 30, some 1013, some 0, some 0⟩
      none (some 5) none =
      some ⟨"27005G16KT", "9999", "", "NCD", "10/05", "Q1013"⟩ := by
  with_unfolding_all rfl

/-- C6 witness: the amended equivalence at a concrete accepted sample with
gust 30 km/h over mean 10 km/h. -/
theorem claim_C6_witness :
    metarGroups (fun _ => 0)
      ⟨some 10, some 50, some 10, some 270, some 30, some 1013, some 0, some 0⟩
      none (some 5) none =
      some ⟨"27005G16KT", "9999", "", "NCD", "10/05", "Q1013"⟩ ∧
    kmh_to_knots 10 ≥ 3 ∧
    (hasChar "27005G16KT" 'G' = true ↔ ((30 : ℚ) ≠ 0 ∧ (30 : ℚ) - 10 ≥ 18.5)) :=
  ⟨metarGroups_C6_sample, by rw [kt10]; decide,
    claim_C6_gust_threshold (fun _ => 0)
      ⟨some 10, some 50, some 10, some 270, some 30, some 1013, some 0, some 0⟩
      none (some 5) none ⟨"27005G16KT", "9999", "", "NCD", "10/05", "Q1013"⟩ 10 30
      metarGroups_C6_sample rfl rfl (by rw [kt10]; decide)⟩

set_option maxRecDepth 8000 in
/-- C2 counterexample: an explicit-fog sample (code 45) with dew-point
spread 0 (≤ 0.5 °C) gets visibility `0800` (800 m), not the 300 m the
spread rule would dictate. -/
theorem claim_C2_counterexample :
    ((10 : ℚ) - 10 ≤ 0.5) ∧
    (metarGroups (fun _ => 0)
      ⟨some 10, some 100, some 0, some 0, none, some 1013, some 100, some 45⟩
      none (some 10) (some 95)).map (fun g => g.visibility) = some "0800" ∧
    (metarGroups (fun _ => 0)
      ⟨some 10, some 100, some 0, some 0, none, some 1013, some 100, some 45⟩
      none (some 10) (some 95)).map (fun g => g.visibility) ≠ some "0300" := by
  refine ⟨by norm_num, by with_unfolding_all rfl, ?_⟩
  have hv : (metarGroups (fun _ => 0)
      ⟨some 10, some 100, some 0, some 0, none, some 1013, some 100, some 45⟩
      none (some 10) (some 95)).map (fun g => g.visibility) = some "0800" := by
    with_unfolding_all rfl
  rw [hv]
  decide

/-- With an explicit fog code the visibility group entering the fog branch
is already the forced `0800`, and the branch keeps it. -/
theorem fogAdjust_explicit_fog (wc : ℕ) (sp : ℚ) (lcl : ℤ) (ccl : Option ℤ)
    (vk : Option ℚ) (cc : ℚ) (wx : String) (hwx : wc = 45 ∨ wc = 48) :
    (fogAdjust wc sp lcl ccl (visibilityPre wc vk cc) wx).1 = "0800" := by
  have hvis : visibilityPre wc vk cc = "0800" := by
    unfold visibilityPre
    rw [if_pos hwx]
  have hfb : fogBranch wc sp ccl = true := by
    unfold fogBranch
    rcases hwx with h | h <;> subst h <;> simp
  simp only [fogAdjust]
  rw [if_pos hfb, if_neg (by rintro ⟨hnot, -⟩; exact hnot hwx)]
  exact hvis

/-- C2 (amended): for every sample accepted by the encoder whose weather
phenomenon is an explicit fog code (45/48), the visibility group is the
fixed `0800` (800 m) regardless of the dew-point spread; the
spread-derived 300 m / 1000 m values belong to the implicit-fog branch
only. -/
theorem claim_C2_explicit_fog_visibility (log : ℚ → ℚ) (cw : CurrentWeather)
    (visibility_km dewpoint_c : Option ℚ) (cloud_cover_low : Option ℤ)
    (g : MetarGroups)
    (hg : metarGroups log cw visibility_km dewpoint_c cloud_cover_low = some g)
    (hwx : cw.weather_code.getD 0 = 45 ∨ cw.weather_code.getD 0 = 48) :
    g.visibility = "0800" := by
  rcases cw with ⟨ct, chm, cws, cwd, cwg, cp, ccc, cwc⟩
  simp only at hwx
  rcases ct with _ | t
  · exact absurd hg (by simp [metarGroups])
  rcases chm with _ | hum
  · exact absurd hg (by simp [metarGroups])
  rcases cws with _ | ws
  · exact absurd hg (by simp [metarGroups])
  rcases cwd with _ | wd
  · exact absurd hg (by simp [metarGroups])
  rcases cp with _ | p
  · exact absurd hg (by simp [metarGroups])
  simp only [metarGroups] at hg
  cases Option.some.inj hg
  exact fogAdjust_explicit_fog _ _ _ _ _ _ _ hwx

set_option maxRecDepth 8000 in
/-- C2 witness: the amended statement at a concrete rime-fog sample. -/
theorem claim_C2_witness :
    metarGroups (fun _ => 0)
      ⟨some 10, some 100, some 0, some 0, none, some 1013, some 100, some 48⟩
      none (some 10) none =
      some ⟨"00000KT", "0800", "FG", "OVC001", "10/10", "Q1013"⟩ ∧
    ((⟨some 10, some 100, some 0, some 0, none, some 1013, some 100, some 48⟩ :
        CurrentWeather).weather_code.getD 0 = 45 ∨
      (⟨some 10, some 100, some 0, some 0, none, some 1013, some 100, some 48⟩ :
        CurrentWeather).weather_code.getD 0 = 48) ∧
    (⟨"00000KT", "0800", "FG", "OVC001", "10/10", "Q1013"⟩ : MetarGroups).visibility =
      "0800" :=
  ⟨by with_unfolding_all rfl, by decide,
    claim_C2_explicit_fog_visibility (fun _ => 0)
      ⟨some 10, some 100, some 0, some 0, none, some 1013, some 100, some 48⟩
      none (some 10) none ⟨"00000KT", "0800", "FG", "OVC001", "10/10", "Q1013"⟩
      (by with_unfolding_all rfl) (by decide)⟩

/-- Inside the fog branch the cloud group is always Overcast with a height
of 1–4 hundreds of feet. -/
theorem fogAdjust_clouds_bounded (wc : ℕ) (sp : ℚ) (lcl : ℤ) (ccl : Option ℤ)
    (vis wx : String) (hfb : fogBranch wc sp ccl = true) :
    ∃ hgt : ℤ, 1 ≤ hgt ∧ hgt ≤ 4 ∧
      (fogAdjust wc sp lcl ccl vis wx).2.2 = "OVC" ++ zpad 3 hgt := by
  refine ⟨max 1 (min lcl 4), by omega, by omega, ?_⟩
  simp only [fogAdjust]
  rw [if_pos hfb]
  split_ifs <;> rfl

/-- C9: whenever the encoder takes the fog branch (explicit fog code or
implicit fog detection), the emitted cloud group is Overcast with a height
between 1 and 4 hundreds of feet inclusive, for every combination of
temperature and dew point. -/
theorem claim_C9_fog_cloud_group (log : ℚ → ℚ) (cw : CurrentWeather)
    (visibility_km dewpoint_c : Option ℚ) (cloud_cover_low : Option ℤ)
    (g : MetarGroups) (t h : ℚ)
    (ht : cw.temperature = some t) (hh : cw.humidity = some h)
    (hg : metarGroups log cw visibility_km dewpoint_c cloud_cover_low = some g)
    (hfog : fogBranch (cw.weather_code.getD 0) (t - dpForLcl log t h dewpoint_c)
      cloud_cover_low = true) :
    ∃ hgt : ℤ, 1 ≤ hgt ∧ hgt ≤ 4 ∧ g.clouds = "OVC" ++ zpad 3 hgt := by
  rcases cw with ⟨ct, chm, cws, cwd, cwg, cp, ccc, cwc⟩
  simp only at ht hh hfog
  subst ht hh
  rcases cws with _ | ws
  · exact absurd hg (by simp [metarGroups])
  rcases cwd with _ | wd
  · exact absurd hg (by simp [metarGroups])
  rcases cp with _ | p
  · exact absurd hg (by simp [metarGroups])
  simp only [metarGroups] at hg
  cases Option.some.inj hg
  exact fogAdjust_clouds_bounded _ _ _ _ _ _ hfog

set_option maxRecDepth 8000 in
/-- C9 witness: an implicit-fog sample (spread 0.5 °C, low cloud 95 %)
yields `OVC002`. -/
theorem claim_C9_witness :
    ∃ hgt : ℤ, 1 ≤ hgt ∧ hgt ≤ 4 ∧
      (⟨"VRB02KT", "0300", "FG", "OVC002", "12/12", "Q1013"⟩ :
        MetarGroups).clouds = "OVC" ++ zpad 3 hgt :=
  claim_C9_fog_cloud_group (fun _ => 0)
    ⟨some 12, some 90, some 3, some 100, none, some 1013, some 100, some 0⟩
    none (some 11.5) (some 95)
    ⟨"VRB02KT", "0300", "FG", "OVC002", "12/12", "Q1013"⟩ 12 90 rfl rfl
    (by with_unfolding_all rfl) (by with_unfolding_all rfl)

end LemrMeteo

